import Mathlib

/-!
Verification development for the AI Interview Simulator (app.py).

The file shallowly embeds the session-orchestration core of app.py:
the question-text parser inside GeminiClient.generate_questions, the
fallback question pool, the InterviewTimer, and the Streamlit stage
handlers (details form submission, interview submit/skip, the deadline
check, the report request and the reset actions).

Python strings are modelled as lists of characters (PyStr); Python
string methods (strip, split, startswith, endswith, find, rfind,
slicing) are defined below with Python's semantics.  json.loads is
modelled in full (pyJsonLoads over PyVal values: strings, numbers,
booleans, None, lists, dicts), together with its restriction to
string-element lists used by the string-typed parser statements.
External calls to the generative service are modelled by an argument
carrying the call's outcome (some raw text, or none / an error for a
raised exception): every code path of the embedded functions is total,
mirroring the source's catch-all exception handlers.
-/

/-- Python strings, modelled as lists of characters. -/
abbrev PyStr := List Char

/-- Characters stripped by Python's str.strip() (ASCII whitespace). -/
def isPyWhitespace (c : Char) : Bool :=
  c = ' ' || c = '\t' || c = '\n' || c = '\r' || c = '\x0b' || c = '\x0c'

/-- Python str.strip(): remove leading and trailing whitespace. -/
def pyStrip (s : PyStr) : PyStr :=
  ((s.dropWhile isPyWhitespace).reverse.dropWhile isPyWhitespace).reverse

/-- Python s.split(chr(10)): split on newline; "" splits to [""]. -/
def pySplitLines : PyStr → List PyStr
  | [] => [[]]
  | c :: rest =>
    if c = '\n' then [] :: pySplitLines rest
    else
      match pySplitLines rest with
      | [] => [[c]]
      | l :: ls => (c :: l) :: ls

/-- Python chr(10).join(lines). -/
def pyJoinLines : List PyStr → PyStr
  | [] => []
  | [l] => l
  | l :: ls => l ++ '\n' :: pyJoinLines ls

/-- Python s.startswith(p). -/
def pyStartsWith (s p : PyStr) : Bool :=
  s.take p.length = p

/-- Python s.endswith(p). -/
def pyEndsWith (s p : PyStr) : Bool :=
  s.drop (s.length - p.length) = p && p.length ≤ s.length

/-- Python s.find(c): index of the first occurrence, none for -1. -/
def pyFind : PyStr → Char → Option Nat
  | [], _ => none
  | c :: rest, t =>
    if c = t then some 0 else (pyFind rest t).map (· + 1)

/-- Python s.rfind(c): index of the last occurrence, none for -1. -/
def pyRFind (s : PyStr) (t : Char) : Option Nat :=
  (pyFind s.reverse t).map (fun i => s.length - 1 - i)

/-- Python s[a:b] for 0 ≤ a ≤ b (the only shape the parser uses). -/
def pySlice (s : PyStr) (a b : Nat) : PyStr :=
  (s.drop a).take (b - a)

/-- Fallback question catalog of GeminiClient._get_fallback_questions
(app.py lines 252-265): a fixed, ordered pool of 12 generic questions. -/
def fallback_questions : List PyStr :=
  [ "Tell me about a time when you had to lead a team through a difficult project. What was your approach and what were the results?".data
  , "Describe a situation where you had to solve a complex problem with limited resources. How did you handle it and what did you learn?".data
  , "Can you share an example of when you had to work with a difficult team member or stakeholder? What actions did you take?".data
  , "Tell me about a time when you had to adapt quickly to a significant change in your work environment. What was the outcome?".data
  , "Describe a situation where you made a mistake. How did you handle it and what did you learn from the experience?".data
  , "Give me an example of when you had to influence others without having direct authority over them. What was the result?".data
  , "Tell me about a time when you had to work under tight deadlines. How did you prioritize and manage your time?".data
  , "Describe a situation where you had to learn a new skill quickly to complete a project. What was the impact?".data
  , "Can you share an example of when you had to give difficult feedback to a colleague? How did you approach it?".data
  , "Tell me about a time when you had to make a decision with incomplete information. What was the outcome?".data
  , "Describe a situation where you had to manage competing priorities from different stakeholders. How did you handle it?".data
  , "Give me an example of when you went above and beyond what was expected in your role. What were the results?".data ]

/-- GeminiClient._get_fallback_questions (app.py line 267): the first
num_questions entries of the pool, fewer when the pool is exhausted. -/
def get_fallback_questions (num_questions : Nat) : List PyStr :=
  fallback_questions.take num_questions

/-- Whitespace accepted between tokens by Python's json.loads. -/
def isJsonWhitespace (c : Char) : Bool :=
  c = ' ' || c = '\t' || c = '\n' || c = '\r'

/-- Skip JSON inter-token whitespace. -/
def skipJsonWS (s : PyStr) : PyStr :=
  s.dropWhile isJsonWhitespace

/-- Value of a hexadecimal digit, none for other characters. -/
def hexDigitVal (c : Char) : Option Nat :=
  if '0' ≤ c ∧ c ≤ '9' then some (c.toNat - '0'.toNat)
  else if 'a' ≤ c ∧ c ≤ 'f' then some (c.toNat - 'a'.toNat + 10)
  else if 'A' ≤ c ∧ c ≤ 'F' then some (c.toNat - 'A'.toNat + 10)
  else none

/-- Translation of a two-character JSON escape (the character after the
backslash), none when the escape needs the uXXXX form or is invalid. -/
def jsonSimpleEscape (e : Char) : Option Char :=
  if e = '"' then some '"'
  else if e = '\\' then some '\\'
  else if e = '/' then some '/'
  else if e = 'b' then some '\x08'
  else if e = 'f' then some '\x0c'
  else if e = 'n' then some '\n'
  else if e = 'r' then some '\r'
  else if e = 't' then some '\t'
  else none

/-- Body of a JSON string literal, entered just after the opening quote:
returns the decoded content and the input remaining after the closing
quote.  Control characters below 0x20 are rejected, escapes follow the
JSON grammar (strict mode of Python's json.loads). -/
def parseJsonStringBody : PyStr → Option (PyStr × PyStr)
  | [] => none
  | '"' :: rest => some ([], rest)
  | '\\' :: [] => none
  | '\\' :: e :: rest =>
    match jsonSimpleEscape e with
    | some c => (parseJsonStringBody rest).map (fun p => (c :: p.1, p.2))
    | none =>
      if e = 'u' then
        match rest with
        | h1 :: h2 :: h3 :: h4 :: rest2 =>
          match hexDigitVal h1, hexDigitVal h2, hexDigitVal h3, hexDigitVal h4 with
          | some v1, some v2, some v3, some v4 =>
            (parseJsonStringBody rest2).map
              (fun p => (Char.ofNat (((v1 * 16 + v2) * 16 + v3) * 16 + v4) :: p.1, p.2))
          | _, _, _, _ => none
        | _ => none
      else none
  | c :: rest =>
    if c.toNat < 32 then none
    else (parseJsonStringBody rest).map (fun p => (c :: p.1, p.2))

/-- Python value produced by json.loads: string, number, boolean, None,
list or dict.  Numeric literals keep their source lexeme: no embedded
statement inspects a numeric value, only whether decoding succeeds and
what shape the decoded value has, so this avoids floating point while
keeping the decoder's success domain exactly that of json.loads. -/
inductive PyVal where
  | str : PyStr → PyVal
  | num : PyStr → PyVal
  | bool : Bool → PyVal
  | null : PyVal
  | list : List PyVal → PyVal
  | dict : List (PyStr × PyVal) → PyVal

/-- Decimal digit test for the JSON number grammar. -/
def isJsonDigit (c : Char) : Bool :=
  '0' ≤ c && c ≤ '9'

/-- JSON number lexeme at the head of the input, following the NUMBER_RE
regex of Python's json scanner: optional minus, then 0 or a nonzero-led
digit run, then an optional fraction (dot plus digits) and an optional
exponent (e or E, optional sign, digits).  A fraction or exponent that
cannot complete is not consumed, as with a regex.  Returns the lexeme
and the remaining input. -/
def parseJsonNumber (s : PyStr) : Option (PyStr × PyStr) :=
  let sp : PyStr × PyStr :=
    match s with
    | '-' :: r => (['-'], r)
    | _ => ([], s)
  match sp.2 with
  | [] => none
  | c :: r =>
    let ip? : Option (PyStr × PyStr) :=
      if c = '0' then some (['0'], r)
      else if isJsonDigit c then some (c :: r.takeWhile isJsonDigit, r.dropWhile isJsonDigit)
      else none
    match ip? with
    | none => none
    | some (ip, r2) =>
      let fp : PyStr × PyStr :=
        match r2 with
        | '.' :: r2a =>
          let ds := r2a.takeWhile isJsonDigit
          if ds = [] then ([], r2)
          else ('.' :: ds, r2a.dropWhile isJsonDigit)
        | _ => ([], r2)
      let ep : PyStr × PyStr :=
        match fp.2 with
        | e :: r3a =>
          if e = 'e' ∨ e = 'E' then
            let sg : PyStr × PyStr :=
              match r3a with
              | pc :: rr => if pc = '+' ∨ pc = '-' then ([pc], rr) else ([], r3a)
              | [] => ([], r3a)
            let ds := sg.2.takeWhile isJsonDigit
            if ds = [] then ([], fp.2)
            else (e :: (sg.1 ++ ds), sg.2.dropWhile isJsonDigit)
          else ([], fp.2)
        | [] => ([], fp.2)
      some (sp.1 ++ ip ++ fp.1 ++ ep.1, ep.2)

mutual

/-- JSON value at the head of the input (after optional whitespace):
string, array, object, the literals true, false and null, the
constants NaN and positive or negative Infinity that Python's
json.loads accepts by default, or a number.  Fuel bounds the recursion depth; parseJsonValue consumes the
opening bracket before recursing into element parsing, so fuel
2*length+2 (supplied by pyJsonLoads) never runs out on decodable
input.  Returns the value and the remaining input. -/
def parseJsonValue : Nat → PyStr → Option (PyVal × PyStr)
  | 0, _ => none
  | fuel + 1, s =>
    match skipJsonWS s with
    | '"' :: rest => (parseJsonStringBody rest).map (fun p => (PyVal.str p.1, p.2))
    | '[' :: rest =>
      match skipJsonWS rest with
      | ']' :: rest2 => some (PyVal.list [], rest2)
      | _ => (parseJsonArrayItems fuel rest).map (fun p => (PyVal.list p.1, p.2))
    | '{' :: rest =>
      match skipJsonWS rest with
      | '}' :: rest2 => some (PyVal.dict [], rest2)
      | _ => (parseJsonObjItems fuel rest).map (fun p => (PyVal.dict p.1, p.2))
    | t =>
      if pyStartsWith t "true".data then some (PyVal.bool true, t.drop 4)
      else if pyStartsWith t "false".data then some (PyVal.bool false, t.drop 5)
      else if pyStartsWith t "null".data then some (PyVal.null, t.drop 4)
      else if pyStartsWith t "NaN".data then some (PyVal.num "NaN".data, t.drop 3)
      else if pyStartsWith t "Infinity".data then some (PyVal.num "Infinity".data, t.drop 8)
      else if pyStartsWith t "-Infinity".data then some (PyVal.num "-Infinity".data, t.drop 9)
      else (parseJsonNumber t).map (fun p => (PyVal.num p.1, p.2))

/-- Comma-separated JSON array elements up to and including the closing
bracket, entered after the opening bracket of a non-empty array. -/
def parseJsonArrayItems : Nat → PyStr → Option (List PyVal × PyStr)
  | 0, _ => none
  | fuel + 1, s =>
    match parseJsonValue fuel s with
    | none => none
    | some (v, rest) =>
      match skipJsonWS rest with
      | ',' :: rest2 => (parseJsonArrayItems fuel rest2).map (fun p => (v :: p.1, p.2))
      | ']' :: rest2 => some ([v], rest2)
      | _ => none

/-- Comma-separated JSON object members (string key, colon, value) up to
and including the closing brace, entered after the opening brace of a
non-empty object. -/
def parseJsonObjItems : Nat → PyStr → Option (List (PyStr × PyVal) × PyStr)
  | 0, _ => none
  | fuel + 1, s =>
    match skipJsonWS s with
    | '"' :: rest =>
      match parseJsonStringBody rest with
      | none => none
      | some (key, rest2) =>
        match skipJsonWS rest2 with
        | ':' :: rest3 =>
          match parseJsonValue fuel rest3 with
          | none => none
          | some (v, rest4) =>
            match skipJsonWS rest4 with
            | ',' :: rest5 => (parseJsonObjItems fuel rest5).map (fun p => ((key, v) :: p.1, p.2))
            | '}' :: rest5 => some ([(key, v)], rest5)
            | _ => none
        | _ => none
    | _ => none

end

/-- Model of Python's json.loads (the call at app.py line 114): decode
the whole input as one JSON value, allowing surrounding whitespace;
none when the decode raises.  The fuel bound 2*length+2 covers any
decodable input, since at least one bracket is consumed per two levels
of recursion. -/
def pyJsonLoads (s : PyStr) : Option PyVal :=
  match parseJsonValue (2 * s.length + 2) s with
  | some (v, rest) => if skipJsonWS rest = [] then some v else none
  | none => none

/-- String payload of a decoded value, none for non-strings. -/
def PyVal.asStr : PyVal → Option PyStr
  | .str t => some t
  | _ => none

/-- All-string view of a decoded element list: some exactly when every
element is a string, used by the string-typed parser statements that
match the declared List[str] signature of generate_questions. -/
def asStrList : List PyVal → Option (List PyStr)
  | [] => some []
  | v :: vs =>
    match v.asStr, asStrList vs with
    | some t, some ts => some (t :: ts)
    | _, _ => none

/-- Three backticks, the markdown fence delimiter tested at app.py
line 103. -/
def fenceMarker : PyStr := "\x60\x60\x60".data

/-- Cleanup steps of generate_questions (app.py lines 97-105): strip the
raw text (twice, as the source does) and remove the first and last
lines when the text starts with a markdown fence and has more than two
lines. -/
def preprocess (raw : PyStr) : PyStr :=
  let t := pyStrip raw
  let t := pyStrip t
  if pyStartsWith t fenceMarker then
    let lines := pySplitLines t
    if 2 < lines.length then pyJoinLines ((lines.drop 1).dropLast) else t
  else t

/-- Structured-decode strategy (app.py lines 107-121): take the
substring from the first open bracket to the last close bracket,
subject to the end_idx > start_idx guard of line 111, and run
json.loads on it, keeping the result when it is a list (the isinstance
checks at lines 115 and 117).  The result is none when no bracket
substring exists, the decode raises JSONDecodeError, or the decoded
value is not a list - exactly the cases in which the source falls
through to the line scan. -/
def structuredDecodeLoads (t : PyStr) : Option (List PyVal) :=
  match pyFind t '[', pyRFind t ']' with
  | some s, some r =>
    if s < r + 1 then
      match pyJsonLoads (pySlice t s (r + 1)) with
      | some (PyVal.list items) => some items
      | _ => none
    else none
  | _, _ => none

/-- Structured-decode strategy restricted to lists whose elements are
all strings (the declared List[str] return shape of
generate_questions): the string-typed parser statements quantify over
this domain, on which it coincides with structuredDecodeLoads through
PyVal.str (theorem structuredDecodeLoads_of_strs below). -/
def structuredDecode (t : PyStr) : Option (List PyStr) :=
  match structuredDecodeLoads t with
  | some items => asStrList items
  | none => none

/-- One iteration of the fallback line-scan loop of generate_questions
(app.py lines 127-136): strip the line and accept it when it is a
quoted string with a trailing comma, a bare quoted string, a bulleted
line, or a line numbered exactly with the next 1-based position. -/
def scanLineStep (acc : List PyStr) (rawLine : PyStr) : List PyStr :=
  let line := pyStrip rawLine
  if pyStartsWith line ['"'] && pyEndsWith line ['"', ','] then
    acc ++ [((line.drop 1).dropLast).dropLast]
  else if pyStartsWith line ['"'] && pyEndsWith line ['"'] then
    acc ++ [(line.drop 1).dropLast]
  else if pyStartsWith line ['-', ' '] then
    acc ++ [line.drop 2]
  else
    let numbered := (toString (acc.length + 1)).data ++ ['.']
    if pyStartsWith line numbered then
      acc ++ [pyStrip (line.drop numbered.length)]
    else acc

/-- Fallback line-scan of generate_questions (app.py lines 124-136). -/
def scanLines (lines : List PyStr) : List PyStr :=
  lines.foldl scanLineStep []

/-- Parsing path of GeminiClient.generate_questions (app.py lines
97-142) over the full json.loads model: structured decode first - a
decoded list is returned as decoded, its elements strings or not,
since the source checks isinstance(questions, list) but never the
element type - otherwise the line scan; shortfalls are padded from the
fallback pool and the result truncated to num_questions. -/
def parse_questions_loads (raw : PyStr) (num_questions : Nat) : List PyVal :=
  let t := preprocess raw
  match structuredDecodeLoads t with
  | some questions =>
    if num_questions ≤ questions.length then questions.take num_questions
    else questions ++ (get_fallback_questions (num_questions - questions.length)).map PyVal.str
  | none =>
    let questions := (scanLines (pySplitLines t)).map PyVal.str
    let questions :=
      if questions.length < num_questions then
        questions ++ (get_fallback_questions (num_questions - questions.length)).map PyVal.str
      else questions
    questions.take num_questions

/-- Parsing path of generate_questions specialized to the string-typed
domain (structured decodes yielding string lists, and inputs with no
structured decode at all, where every produced item is a string): on
that domain it agrees with parse_questions_loads through PyVal.str
(theorem parse_questions_loads_agrees below), and it carries the
List[str] type that generate_questions declares and the session model
stores. -/
def parse_questions (raw : PyStr) (num_questions : Nat) : List PyStr :=
  let t := preprocess raw
  match structuredDecode t with
  | some questions =>
    if num_questions ≤ questions.length then questions.take num_questions
    else questions ++ get_fallback_questions (num_questions - questions.length)
  | none =>
    let questions := scanLines (pySplitLines t)
    let questions :=
      if questions.length < num_questions then
        questions ++ get_fallback_questions (num_questions - questions.length)
      else questions
    questions.take num_questions

/-- GeminiClient.generate_questions (app.py lines 95-146).  The outcome
of the external model.generate_content call is an argument: some raw
text on success, none when the call raises; the catch-all handler at
line 144 turns a raised call into the fallback pool. -/
def generate_questions (response : Option PyStr) (num_questions : Nat) : List PyStr :=
  match response with
  | some raw => parse_questions raw num_questions
  | none => get_fallback_questions num_questions

/-- Stages of the session state machine (app.py 'stage' key). -/
inductive Stage where
  | upload
  | details
  | interview
  | feedback
deriving DecidableEq, Repr

/-- Job details dictionary built at app.py lines 811-818. -/
structure JobDetails where
  job_title : PyStr
  company_name : PyStr
  job_description : PyStr
  experience_years : Nat
  industry : PyStr
  duration : Nat
deriving DecidableEq, Repr

/-- Entry of st.session_state.question_responses (app.py lines 952-956
and 964-968). -/
structure ResponseRecord where
  question : PyStr
  answer : PyStr
  question_number : Nat
deriving DecidableEq, Repr

/-- Entry of st.session_state.individual_feedback (app.py lines
978-981 and 983-986). -/
structure FeedbackEntry where
  question_number : Nat
  feedback : PyStr
deriving DecidableEq, Repr

/-- InterviewTimer (app.py lines 354-384).  Timestamps are integer
seconds on an absolute clock. -/
structure InterviewTimer where
  duration_seconds : Nat
  start_time : Option Int
  question_start_time : Option Int
deriving DecidableEq, Repr

/-- InterviewTimer.__init__ (app.py lines 355-358). -/
def InterviewTimer.init (duration_minutes : Nat) : InterviewTimer :=
  { duration_seconds := duration_minutes * 60
  , start_time := none
  , question_start_time := none }

/-- InterviewTimer.start_interview (app.py lines 360-361), with the
current time as an argument. -/
def InterviewTimer.start_interview (t : InterviewTimer) (now : Int) : InterviewTimer :=
  { t with start_time := some now }

/-- InterviewTimer.get_remaining_time (app.py lines 366-372): the full
duration until the interview starts, afterwards the elapsed time is
subtracted and the result floored at zero. -/
def InterviewTimer.get_remaining_time (t : InterviewTimer) (now : Int) : Int :=
  match t.start_time with
  | none => (t.duration_seconds : Int)
  | some s => max 0 ((t.duration_seconds : Int) - (now - s))

/-- Session state of one user (the st.session_state keys initialized at
app.py lines 389-406 that the orchestration core reads or writes). -/
structure AppState where
  stage : Stage
  resume_text : PyStr
  job_details : Option JobDetails
  interview_duration : Nat
  num_questions : Nat
  questions : List PyStr
  current_question_idx : Nat
  question_responses : List ResponseRecord
  individual_feedback : List FeedbackEntry
  overall_feedback : PyStr
  interview_completed : Bool
  timer : Option InterviewTimer
  question_timer_start : Option Int
  duration_selected : Bool
deriving DecidableEq, Repr

/-- Defaults of initialize_session_state (app.py lines 389-406). -/
def initial_state : AppState :=
  { stage := .upload
  , resume_text := []
  , job_details := none
  , interview_duration := 15
  , num_questions := 3
  , questions := []
  , current_question_idx := 0
  , question_responses := []
  , individual_feedback := []
  , overall_feedback := []
  , interview_completed := false
  , timer := none
  , question_timer_start := none
  , duration_selected := false }

/-- Validation outcomes reported by the details-stage submit handler
(app.py lines 795-849). -/
inductive DetailsError where
  | missingFields
  | noDuration
  | generationStepRaised
deriving DecidableEq, Repr

/-- Result of one details-form submission: the updated session state,
the reported error when the transition was refused, and whether the
question-generation step of lines 822-842 was reached. -/
structure DetailsResult where
  state : AppState
  error : Option DetailsError
  attempted_generation : Bool
deriving Repr

/-- Details-stage submit handler (app.py lines 795-849).  Guards run in
source order: empty required fields first, then the duration flag.
When both pass, job_details is stored (line 820) and the generation
step runs inside try/except: client_ok models whether the
st.session_state.gemini_client call itself can be made (False when the
client is uninitialized, raising into the handler at line 843), and
svc carries the generative service outcome passed to
generate_questions, whose internal catch-all absorbs service failures
into fallback questions. -/
def details_submit (st : AppState) (job_title company_name job_description : PyStr)
    (experience_years : Nat) (industry : PyStr)
    (client_ok : Bool) (svc : Option PyStr) : DetailsResult :=
  if job_title = [] ∨ company_name = [] ∨ job_description = [] then
    { state := st, error := some .missingFields, attempted_generation := false }
  else if st.duration_selected = false then
    { state := st, error := some .noDuration, attempted_generation := false }
  else
    let jd : JobDetails :=
      { job_title := job_title
      , company_name := company_name
      , job_description := job_description
      , experience_years := experience_years
      , industry := industry
      , duration := st.interview_duration }
    let st := { st with job_details := some jd }
    if client_ok then
      let questions := generate_questions svc st.num_questions
      { state :=
          { st with questions := questions
                  , timer := some (InterviewTimer.init st.interview_duration)
                  , stage := .interview }
      , error := none
      , attempted_generation := true }
    else
      { state := st, error := some .generationStepRaised, attempted_generation := true }

/-- Timer block at the top of render_interview_stage (app.py lines
860-884): start the interview timer on first entry, then force the
Interview to Feedback transition when the remaining time has reached
zero.  Nothing else of the session changes on this path; in particular
overall_feedback is not produced here. -/
def interview_tick (st : AppState) (now : Int) : AppState :=
  match st.timer with
  | none => st
  | some t =>
    let t := if t.start_time.isNone then t.start_interview now else t
    let st := { st with timer := some t }
    if t.get_remaining_time now ≤ 0 then
      { st with interview_completed := true, stage := .feedback }
    else st

/-- Skip sentinel recorded at app.py line 954. -/
def skip_sentinel : PyStr := "[Question Skipped]".data

/-- Skip-button handler (app.py lines 951-960): append a response
record with the sentinel answer, advance the question index, reset the
per-question timer; no feedback entry is appended. -/
def interview_skip (st : AppState) : AppState :=
  { st with
      question_responses := st.question_responses ++
        [ { question := st.questions.getD st.current_question_idx []
          , answer := skip_sentinel
          , question_number := st.current_question_idx + 1 } ]
    , current_question_idx := st.current_question_idx + 1
    , question_timer_start := none }

/-- Deterministic failure placeholder returned by
GeminiClient.generate_individual_feedback's handler (app.py line 176). -/
def feedback_failure_placeholder : PyStr :=
  "Unable to generate detailed feedback for this question.".data

/-- GeminiClient.generate_individual_feedback (app.py lines 148-176):
the stripped service text on success, the fixed placeholder when the
service call raises (caught at line 175); the function itself never
raises. -/
def generate_individual_feedback (svc : Option PyStr) : PyStr :=
  match svc with
  | some t => pyStrip t
  | none => feedback_failure_placeholder

/-- Submit-answer handler (app.py lines 962-995).  A blank or
whitespace-only answer fails the guard at line 962 and nothing runs.
Otherwise the trimmed answer is recorded, exactly one feedback entry is
appended (generate_individual_feedback absorbs service failures into
its placeholder, so the except arm at lines 982-986 is not reached by a
service failure), the question index advances, and the completed flag
is set when the last question was just answered. -/
def interview_submit (st : AppState) (text : PyStr) (svc : Option PyStr) : AppState :=
  if pyStrip text = [] then st
  else
    let st' :=
      { st with
          question_responses := st.question_responses ++
            [ { question := st.questions.getD st.current_question_idx []
              , answer := pyStrip text
              , question_number := st.current_question_idx + 1 } ]
        , individual_feedback := st.individual_feedback ++
            [ { question_number := st.current_question_idx + 1
              , feedback := generate_individual_feedback svc } ]
        , current_question_idx := st.current_question_idx + 1
        , question_timer_start := none }
    if st'.questions.length ≤ st'.current_question_idx then
      { st' with interview_completed := true }
    else st'

/-- GeminiClient.generate_overall_feedback (app.py lines 178-248): the
stripped service text on success; when the call raises, the handler at
line 247 returns an error string carrying the exception message, so
the function itself never raises. -/
def generate_overall_feedback (svc : Except PyStr PyStr) : PyStr :=
  match svc with
  | .ok t => pyStrip t
  | .error e => "Error generating comprehensive feedback: ".data ++ e

/-- Report-request handler (app.py lines 1015-1024), reachable once
every question has a recorded response or skip: store the overall
feedback produced by generate_overall_feedback and enter the Feedback
stage. -/
def request_report (st : AppState) (svc : Except PyStr PyStr) : AppState :=
  { st with overall_feedback := generate_overall_feedback svc, stage := .feedback }

/-- Practice-again reset (app.py lines 1150-1155): clear the interview
artifacts, keep the job details and duration, return to Details. -/
def reset_practice_again (st : AppState) : AppState :=
  { st with
      stage := .details
    , questions := []
    , current_question_idx := 0
    , question_responses := []
    , individual_feedback := []
    , overall_feedback := []
    , interview_completed := false
    , timer := none
    , question_timer_start := none }

/-- New-position reset (app.py lines 1158-1165): additionally clear the
job details and the duration selection. -/
def reset_new_position (st : AppState) : AppState :=
  { reset_practice_again st with
      job_details := none
    , interview_duration := 15
    , num_questions := 3
    , duration_selected := false }

/-- Resume-upload continue button (app.py lines 663 and 685-687):
store the extracted text and move to Details. -/
def upload_continue (st : AppState) (resume : PyStr) : AppState :=
  { st with resume_text := resume, stage := .details }

/-- Duration-selection buttons (app.py lines 750-756). -/
def select_duration (st : AppState) (minutes questions : Nat) : AppState :=
  { st with
      interview_duration := minutes
    , num_questions := questions
    , duration_selected := true }

/-- Session states reachable through the modelled handlers, starting
from the initialize_session_state defaults; the start-over reset
(app.py lines 1168-1174) returns to those defaults. -/
inductive Reachable : AppState → Prop where
  | init : Reachable initial_state
  | upload (st : AppState) (resume : PyStr) :
      Reachable st → Reachable (upload_continue st resume)
  | select (st : AppState) (minutes questions : Nat) :
      Reachable st → Reachable (select_duration st minutes questions)
  | details (st : AppState) (t c d : PyStr) (y : Nat) (ind : PyStr)
      (client_ok : Bool) (svc : Option PyStr) :
      Reachable st → Reachable (details_submit st t c d y ind client_ok svc).state
  | tick (st : AppState) (now : Int) :
      Reachable st → Reachable (interview_tick st now)
  | skip (st : AppState) :
      Reachable st → Reachable (interview_skip st)
  | submit (st : AppState) (text : PyStr) (svc : Option PyStr) :
      Reachable st → Reachable (interview_submit st text svc)
  | report (st : AppState) (svc : Except PyStr PyStr) :
      Reachable st → Reachable (request_report st svc)
  | practice_again (st : AppState) :
      Reachable st → Reachable (reset_practice_again st)
  | new_position (st : AppState) :
      Reachable st → Reachable (reset_new_position st)
  | start_over (st : AppState) :
      Reachable st → Reachable initial_state

/-- Concrete session state sitting at the Details stage with a duration
selected, used as input for several concrete checks. -/
def details_ready_state : AppState :=
  { initial_state with
      stage := .details
    , resume_text := "resume text long enough to pass the extractor".data
    , duration_selected := true }

/-- Concrete session state in the Interview stage with a 15-minute
timer that started at time 0. -/
def deadline_state : AppState :=
  { details_ready_state with
      stage := .interview
    , questions := ["Q one".data, "Q two".data, "Q three".data]
    , timer := some { duration_seconds := 900, start_time := some 0
                    , question_start_time := none } }

/-- The fallback pool holds twelve pairwise distinct questions. -/
theorem fallback_questions_nodup : fallback_questions.Nodup := by decide

/-- An element list whose all-string view succeeds is exactly the image
of the produced strings under PyVal.str. -/
theorem asStrList_eq_some : ∀ (items : List PyVal) (qs : List PyStr),
    asStrList items = some qs → items = qs.map PyVal.str := by
  intro items
  induction items with
  | nil =>
    intro qs h
    simp only [asStrList, Option.some.injEq] at h
    simp [← h]
  | cons v vs ih =>
    intro qs h
    unfold asStrList at h
    rcases hv : v.asStr with _ | t <;> rw [hv] at h
    · simp at h
    · rcases hvs : asStrList vs with _ | ts <;> rw [hvs] at h
      · simp at h
      · simp only [Option.some.injEq] at h
        subst h
        have hvstr : v = PyVal.str t := by
          cases v <;> simp_all [PyVal.asStr]
        rw [hvstr, ih ts hvs, List.map_cons]

/-- The string-restricted structured decode agrees with the full one
through PyVal.str wherever it succeeds. -/
theorem structuredDecodeLoads_of_strs (t : PyStr) (qs : List PyStr)
    (h : structuredDecode t = some qs) :
    structuredDecodeLoads t = some (qs.map PyVal.str) := by
  unfold structuredDecode at h
  rcases hl : structuredDecodeLoads t with _ | items <;> rw [hl] at h
  · simp at h
  · rw [asStrList_eq_some items qs (by simpa using h)]

/-- When the full structured decode fails, so does its string
restriction. -/
theorem structuredDecode_of_loads_none (t : PyStr) (h : structuredDecodeLoads t = none) :
    structuredDecode t = none := by
  unfold structuredDecode
  rw [h]

/-- On the string-typed domain - a structured decode yielding a string
list, or no structured decode at all - the PyVal-level parser and the
string-level parser produce the same items, related by PyVal.str. -/
theorem parse_questions_loads_agrees (raw : PyStr) (n : Nat)
    (h : structuredDecodeLoads (preprocess raw) = none
       ∨ ∃ qs, structuredDecode (preprocess raw) = some qs) :
    parse_questions_loads raw n = (parse_questions raw n).map PyVal.str := by
  rcases h with h | ⟨qs, h⟩
  · have h2 := structuredDecode_of_loads_none _ h
    simp only [parse_questions_loads, parse_questions, h, h2, List.length_map]
    split_ifs with hlen <;>
      simp [List.map_append, List.map_take]
  · have hl := structuredDecodeLoads_of_strs _ _ h
    simp only [parse_questions_loads, parse_questions, h, hl, List.length_map]
    split_ifs with hlen <;>
      simp [List.map_append, List.map_take]

/-- C1: when the structured-decode substring of the (cleaned) raw text
decodes as a list of at least N strings, the parser returns exactly the
first N decoded items, in order and unmodified, with no fallback-pool
padding. -/
theorem parser_returns_first_n (raw : PyStr) (n : Nat) (qs : List PyStr)
    (hn : 0 < n)
    (hdec : structuredDecode (preprocess raw) = some qs)
    (hlen : n ≤ qs.length) :
    parse_questions raw n = qs.take n := by
  unfold parse_questions
  simp [hdec, hlen]

/-- Witness for C1 at a concrete three-item JSON array with N = 2. -/
theorem parser_returns_first_n_witness :
    0 < 2
    ∧ structuredDecode (preprocess "[\"Alpha\", \"Beta\", \"Gamma\"]".data)
        = some ["Alpha".data, "Beta".data, "Gamma".data]
    ∧ 2 ≤ (["Alpha".data, "Beta".data, "Gamma".data] : List PyStr).length
    ∧ parse_questions "[\"Alpha\", \"Beta\", \"Gamma\"]".data 2
        = (["Alpha".data, "Beta".data, "Gamma".data] : List PyStr).take 2 :=
  ⟨by decide, by decide, by decide,
    parser_returns_first_n _ 2 _ (by decide) (by decide) (by decide)⟩

/-- C2: when the structured-decode substring decodes as a list of
M < N strings, the parser returns the M decoded items first, in order,
followed by the first N - M entries of the fallback pool in pool order;
those pool entries are pairwise distinct, so no pool entry repeats
within the call. -/
theorem parser_pads_from_pool (raw : PyStr) (n : Nat) (qs : List PyStr)
    (hn : 0 < n)
    (hdec : structuredDecode (preprocess raw) = some qs)
    (hlen : qs.length < n) :
    parse_questions raw n = qs ++ fallback_questions.take (n - qs.length)
    ∧ (fallback_questions.take (n - qs.length)).Nodup := by
  constructor
  · unfold parse_questions
    simp [hdec, get_fallback_questions, Nat.not_le.mpr hlen]
  · exact (List.take_sublist _ _).nodup fallback_questions_nodup

/-- Witness for C2 at a concrete one-item JSON array with N = 3. -/
theorem parser_pads_from_pool_witness :
    0 < 3
    ∧ structuredDecode (preprocess "[\"Alpha\"]".data) = some ["Alpha".data]
    ∧ (["Alpha".data] : List PyStr).length < 3
    ∧ (parse_questions "[\"Alpha\"]".data 3
        = ["Alpha".data] ++ fallback_questions.take (3 - (["Alpha".data] : List PyStr).length)
      ∧ (fallback_questions.take (3 - (["Alpha".data] : List PyStr).length)).Nodup) :=
  ⟨by decide, by decide, by decide,
    parser_pads_from_pool _ 3 _ (by decide) (by decide) (by decide)⟩

/-- C3: the parser is a total function of (rawText, N) - it never
raises and is deterministic by construction - and on input whose
cleaned text neither structured-decodes under the full json.loads
model (to a list of any element types) nor yields any line accepted by
the heuristic scan, it returns exactly the first N pool entries, that
is min(N, pool size) items in pool order. -/
theorem parser_malformed_uses_pool (raw : PyStr) (n : Nat)
    (hn : 0 < n)
    (hdec : structuredDecodeLoads (preprocess raw) = none)
    (hscan : scanLines (pySplitLines (preprocess raw)) = []) :
    parse_questions_loads raw n = (fallback_questions.take n).map PyVal.str
    ∧ (parse_questions_loads raw n).length = min n fallback_questions.length := by
  have hres : parse_questions_loads raw n = (fallback_questions.take n).map PyVal.str := by
    simp only [parse_questions_loads, hdec, hscan]
    simp [get_fallback_questions, hn, List.map_take, List.take_take]
  refine ⟨hres, ?_⟩
  rw [hres, List.length_map, List.length_take]

/-- Witness for C3 at a concrete non-list text with N = 3. -/
theorem parser_malformed_uses_pool_witness :
    0 < 3
    ∧ structuredDecodeLoads (preprocess "sorry, I cannot help with that".data) = none
    ∧ scanLines (pySplitLines (preprocess "sorry, I cannot help with that".data)) = []
    ∧ (parse_questions_loads "sorry, I cannot help with that".data 3
        = (fallback_questions.take 3).map PyVal.str
      ∧ (parse_questions_loads "sorry, I cannot help with that".data 3).length
          = min 3 fallback_questions.length) :=
  ⟨by decide, by rfl, by decide,
    parser_malformed_uses_pool _ 3 (by decide) (by rfl) (by decide)⟩

/-- C4: before start_interview the remaining time equals the full
duration; after starting at s, for any now at or after s the remaining
time equals clamp(D - (now - s), 0, D), is between 0 and D, is
non-increasing in now, and is 0 once s + D has passed. -/
theorem timer_remaining_clamped (d : Nat) (s now later : Int)
    (hs : s ≤ now) (hlater : now ≤ later) :
    (InterviewTimer.init d).get_remaining_time now = (d : Int) * 60
    ∧ ((InterviewTimer.init d).start_interview s).get_remaining_time now
        = min (max ((d : Int) * 60 - (now - s)) 0) ((d : Int) * 60)
    ∧ 0 ≤ ((InterviewTimer.init d).start_interview s).get_remaining_time now
    ∧ ((InterviewTimer.init d).start_interview s).get_remaining_time now ≤ (d : Int) * 60
    ∧ ((InterviewTimer.init d).start_interview s).get_remaining_time later
        ≤ ((InterviewTimer.init d).start_interview s).get_remaining_time now
    ∧ (s + (d : Int) * 60 ≤ now →
        ((InterviewTimer.init d).start_interview s).get_remaining_time now = 0) := by
  simp only [InterviewTimer.init, InterviewTimer.start_interview,
    InterviewTimer.get_remaining_time]
  refine ⟨by push_cast; ring, ?_, ?_, ?_, ?_, ?_⟩ <;> push_cast <;> omega

/-- Witness for C4 with a 15-minute timer started at 0, queried at 100
and 200 seconds. -/
theorem timer_remaining_clamped_witness :
    (0 : Int) ≤ 100 ∧ (100 : Int) ≤ 200
    ∧ ((InterviewTimer.init 15).get_remaining_time 100 = (15 : Int) * 60
      ∧ ((InterviewTimer.init 15).start_interview 0).get_remaining_time 100
          = min (max ((15 : Int) * 60 - (100 - 0)) 0) ((15 : Int) * 60)
      ∧ 0 ≤ ((InterviewTimer.init 15).start_interview 0).get_remaining_time 100
      ∧ ((InterviewTimer.init 15).start_interview 0).get_remaining_time 100 ≤ (15 : Int) * 60
      ∧ ((InterviewTimer.init 15).start_interview 0).get_remaining_time 200
          ≤ ((InterviewTimer.init 15).start_interview 0).get_remaining_time 100
      ∧ ((0 : Int) + (15 : Int) * 60 ≤ 100 →
          ((InterviewTimer.init 15).start_interview 0).get_remaining_time 100 = 0)) :=
  ⟨by decide, by decide, timer_remaining_clamped 15 0 100 200 (by decide) (by decide)⟩

/-- C5: when the job title, company name or job description is empty,
or no duration was selected, the details submission is refused: the
session state is unchanged (so the stage remains Details), the
question-generation step is never reached, and the reported validation
error identifies the failed guard (missing fields are checked first,
matching the source order). -/
theorem details_guard_refusal (st : AppState) (t c d : PyStr) (y : Nat) (ind : PyStr)
    (client_ok : Bool) (svc : Option PyStr)
    (h : t = [] ∨ c = [] ∨ d = [] ∨ st.duration_selected = false) :
    (details_submit st t c d y ind client_ok svc).state = st
    ∧ (details_submit st t c d y ind client_ok svc).attempted_generation = false
    ∧ (details_submit st t c d y ind client_ok svc).error =
        some (if t = [] ∨ c = [] ∨ d = [] then DetailsError.missingFields
              else DetailsError.noDuration) := by
  by_cases hf : t = [] ∨ c = [] ∨ d = []
  · simp [details_submit, hf]
  · have hdur : st.duration_selected = false := by tauto
    simp [details_submit, hf, hdur]

/-- Witness for C5 at a concrete state with an empty company name. -/
theorem details_guard_refusal_witness :
    (("Engineer".data : PyStr) = [] ∨ ([] : PyStr) = [] ∨ ("desc".data : PyStr) = []
      ∨ details_ready_state.duration_selected = false)
    ∧ ((details_submit details_ready_state "Engineer".data [] "desc".data 3 [] true none).state
        = details_ready_state
      ∧ (details_submit details_ready_state "Engineer".data [] "desc".data 3 [] true
          none).attempted_generation = false
      ∧ (details_submit details_ready_state "Engineer".data [] "desc".data 3 [] true
          none).error =
          some (if ("Engineer".data : PyStr) = [] ∨ ([] : PyStr) = []
                  ∨ ("desc".data : PyStr) = []
                then DetailsError.missingFields else DetailsError.noDuration)) :=
  ⟨by decide, details_guard_refusal details_ready_state _ _ _ 3 _ true none (by decide)⟩

/-- Counterexample to C6: at a fully valid Details state, a raised
generative-service call (absorbed inside generate_questions, app.py
line 144) does not keep the session at Details - the stage advances to
Interview, with the fallback pool as the question list. -/
theorem generation_failure_advances_stage :
    (details_submit details_ready_state "Engineer".data "Acme".data "Build things".data
      3 [] true none).state.stage = Stage.interview
    ∧ (details_submit details_ready_state "Engineer".data "Acme".data "Build things".data
        3 [] true none).state.questions = fallback_questions.take 3
    ∧ Stage.interview ≠ Stage.details := by
  refine ⟨rfl, rfl, by decide⟩

/-- C6 as amended: a transport/service failure of the generation call
is absorbed by generate_questions, which returns fallback-pool
questions, and the session advances to Interview with them; the session
stays at Details (with the error reported) only when the generation
step itself raises outside generate_questions, e.g. because the client
was never initialized. -/
theorem generation_failure_behavior (st : AppState) (t c d : PyStr) (y : Nat) (ind : PyStr)
    (hst : st.stage = .details) (ht : t ≠ []) (hc : c ≠ []) (hd : d ≠ [])
    (hdur : st.duration_selected = true) :
    ((details_submit st t c d y ind true none).state.stage = Stage.interview
      ∧ (details_submit st t c d y ind true none).state.questions
          = fallback_questions.take st.num_questions)
    ∧ ((details_submit st t c d y ind false none).state.stage = Stage.details
      ∧ (details_submit st t c d y ind false none).error
          = some DetailsError.generationStepRaised) := by
  simp [details_submit, ht, hc, hd, hdur, generate_questions, get_fallback_questions, hst]

/-- Witness for the amended C6 at a concrete valid Details state. -/
theorem generation_failure_behavior_witness :
    (details_ready_state.stage = .details
      ∧ ("Engineer".data : PyStr) ≠ [] ∧ ("Acme".data : PyStr) ≠ []
      ∧ ("Build things".data : PyStr) ≠ []
      ∧ details_ready_state.duration_selected = true)
    ∧ (((details_submit details_ready_state "Engineer".data "Acme".data "Build things".data
          3 [] true none).state.stage = Stage.interview
        ∧ (details_submit details_ready_state "Engineer".data "Acme".data "Build things".data
            3 [] true none).state.questions
            = fallback_questions.take details_ready_state.num_questions)
      ∧ ((details_submit details_ready_state "Engineer".data "Acme".data "Build things".data
            3 [] false none).state.stage = Stage.details
        ∧ (details_submit details_ready_state "Engineer".data "Acme".data "Build things".data
            3 [] false none).error = some DetailsError.generationStepRaised)) :=
  ⟨⟨by decide, by decide, by decide, by decide, by decide⟩,
    generation_failure_behavior details_ready_state _ _ _ 3 _ (by decide) (by decide)
      (by decide) (by decide) (by decide)⟩

/-- C7: with a question displayed, Skip appends a response record whose
answer is the fixed skip sentinel, advances the question index by
exactly one and appends no feedback entry; Submit with non-blank text
appends a record whose answer is the whitespace-trimmed text and
advances the index by exactly one. -/
theorem skip_and_submit_effects (st : AppState) (text : PyStr) (svc : Option PyStr)
    (hq : st.current_question_idx < st.questions.length)
    (hne : pyStrip text ≠ []) :
    (interview_skip st).question_responses
      = st.question_responses ++
          [ { question := st.questions.getD st.current_question_idx []
            , answer := skip_sentinel
            , question_number := st.current_question_idx + 1 } ]
    ∧ (interview_skip st).current_question_idx = st.current_question_idx + 1
    ∧ (interview_skip st).individual_feedback = st.individual_feedback
    ∧ (interview_submit st text svc).question_responses
      = st.question_responses ++
          [ { question := st.questions.getD st.current_question_idx []
            , answer := pyStrip text
            , question_number := st.current_question_idx + 1 } ]
    ∧ (interview_submit st text svc).current_question_idx = st.current_question_idx + 1 := by
  refine ⟨rfl, rfl, rfl, ?_, ?_⟩ <;>
    (unfold interview_submit; rw [if_neg hne]; dsimp only; split <;> rfl)

/-- Witness for C7 at the concrete interview state with question index
0 of 3 and the answer text " my answer ". -/
theorem skip_and_submit_effects_witness :
    (deadline_state.current_question_idx < deadline_state.questions.length
      ∧ pyStrip " my answer ".data ≠ [])
    ∧ ((interview_skip deadline_state).question_responses
        = deadline_state.question_responses ++
            [ { question := deadline_state.questions.getD deadline_state.current_question_idx []
              , answer := skip_sentinel
              , question_number := deadline_state.current_question_idx + 1 } ]
      ∧ (interview_skip deadline_state).current_question_idx
          = deadline_state.current_question_idx + 1
      ∧ (interview_skip deadline_state).individual_feedback
          = deadline_state.individual_feedback
      ∧ (interview_submit deadline_state " my answer ".data (some "fine".data)).question_responses
        = deadline_state.question_responses ++
            [ { question := deadline_state.questions.getD deadline_state.current_question_idx []
              , answer := pyStrip " my answer ".data
              , question_number := deadline_state.current_question_idx + 1 } ]
      ∧ (interview_submit deadline_state " my answer ".data
          (some "fine".data)).current_question_idx
          = deadline_state.current_question_idx + 1) :=
  ⟨⟨by decide, by decide⟩,
    skip_and_submit_effects deadline_state _ _ (by decide) (by decide)⟩

/-- C8: in every reachable session state the individual-feedback list
is never longer than the response list, and a Submit whose feedback
service call fails still appends exactly one feedback entry holding the
deterministic failure placeholder. -/
theorem feedback_bounded_and_failure_recorded :
    (∀ st : AppState, Reachable st →
      st.individual_feedback.length ≤ st.question_responses.length)
    ∧ (∀ (st : AppState) (text : PyStr), pyStrip text ≠ [] →
        (interview_submit st text none).individual_feedback
          = st.individual_feedback ++
              [ { question_number := st.current_question_idx + 1
                , feedback := feedback_failure_placeholder } ]) := by
  constructor
  · intro st h
    induction h with
    | init => simp [initial_state]
    | upload st resume _ ih => simpa [upload_continue] using ih
    | select st m q _ ih => simpa [select_duration] using ih
    | details st t c d y ind client_ok svc _ ih =>
      unfold details_submit
      split_ifs <;> simpa using ih
    | tick st now _ ih =>
      unfold interview_tick
      rcases st.timer with _ | tm
      · exact ih
      · simp only
        split_ifs <;> simpa using ih
    | skip st _ ih =>
      simp only [interview_skip, List.length_append, List.length_cons, List.length_nil]
      omega
    | submit st text svc _ ih =>
      unfold interview_submit
      by_cases hblank : pyStrip text = []
      · rw [if_pos hblank]; exact ih
      · rw [if_neg hblank]; dsimp only
        split <;>
          (simp only [List.length_append, List.length_cons, List.length_nil]; omega)
    | report st svc _ ih => simpa [request_report] using ih
    | practice_again st _ ih => simp [reset_practice_again]
    | new_position st _ ih => simp [reset_new_position, reset_practice_again]
    | start_over st _ ih => simp [initial_state]
  · intro st text h
    unfold interview_submit
    rw [if_neg h]; dsimp only
    split <;> rfl

/-- Witness for C8: the bound at the initial state, and a concrete
failed-feedback Submit. -/
theorem feedback_bounded_and_failure_recorded_witness :
    initial_state.individual_feedback.length ≤ initial_state.question_responses.length
    ∧ (pyStrip "my answer".data ≠ []
      ∧ (interview_submit deadline_state "my answer".data none).individual_feedback
          = deadline_state.individual_feedback ++
              [ { question_number := deadline_state.current_question_idx + 1
                , feedback := feedback_failure_placeholder } ]) :=
  ⟨feedback_bounded_and_failure_recorded.1 initial_state Reachable.init,
    by decide,
    feedback_bounded_and_failure_recorded.2 deadline_state _ (by decide)⟩

/-- Counterexample to C9: deadline expiry forces entry to the Feedback
stage while the overall feedback remains unset - scoreSession is not
invoked on this trigger. -/
theorem deadline_entry_leaves_report_unset :
    (interview_tick deadline_state 900).stage = Stage.feedback
    ∧ (interview_tick deadline_state 900).overall_feedback = [] :=
  ⟨rfl, rfl⟩

/-- C9 as amended: the overall feedback report is produced exactly by
the explicit report request, which stores the scoreSession result and
enters Feedback; the forced deadline transition enters Feedback without
invoking scoreSession, leaving the overall feedback (and the question
list) unchanged. -/
theorem report_only_on_explicit_request (st : AppState) (svc : Except PyStr PyStr)
    (now : Int) :
    (request_report st svc).overall_feedback = generate_overall_feedback svc
    ∧ (request_report st svc).stage = Stage.feedback
    ∧ (interview_tick st now).overall_feedback = st.overall_feedback
    ∧ (interview_tick st now).question_responses = st.question_responses := by
  refine ⟨rfl, rfl, ?_, ?_⟩ <;>
    (unfold interview_tick; rcases st.timer with _ | tm; · rfl
     · simp only; split_ifs <;> rfl)

/-- C10: a Submit with blank or whitespace-only text leaves the session
state completely unchanged, for every feedback-service outcome: no
response record, no index advance, no feedback entry. -/
theorem blank_submit_is_noop (st : AppState) (text : PyStr) (svc : Option PyStr)
    (h : pyStrip text = []) :
    interview_submit st text svc = st := by
  unfold interview_submit
  simp [h]

/-- Witness for C10 with a whitespace-only answer. -/
theorem blank_submit_is_noop_witness :
    pyStrip "   ".data = []
    ∧ interview_submit deadline_state "   ".data (some "fb".data) = deadline_state :=
  ⟨by decide, blank_submit_is_noop deadline_state _ _ (by decide)⟩
